import Mathlib

/-!
Verification development for the PhySO billing subsystem
(PhySO-Service HTTP API plus the credit store of the Telegram bot).

The embedding models, from the source:
  - the entities of core/entities/ (User, Model, Prediction, Transaction),
  - the SQLite repository operations of infra/db/sqlite_repositories.py
    as pure operations on an in-memory database value,
  - PhySoService.calculate_cost and the result dictionary of
    PhySoService.train (infra/physo/physo_service.py),
  - the endpoint create_prediction_sync of main_sync.py as a function on
    the database state, split at its single `await` suspension point into
    an admission step and a settlement step,
  - UserService.spend_credits of the Telegram bot
    (PhySO-Telegram-Bot/services/user_service.py),
  - IEEE-754 binary64 arithmetic (the arithmetic Python actually uses for
    money), as exact rationals with round-to-nearest-even at 53 bits.

Monetary amounts in the main model are exact rationals; the floating-point
behaviour of the seeded scenario is settled separately with the binary64
model.  Timestamps are abstract naturals supplied by the caller.
-/

namespace PhySOBilling

/-- Lifecycle status of a prediction record (core/entities/prediction.py:
status is one of pending, processing, completed, failed). -/
inductive Status where
  | pending
  | processing
  | completed
  | failed
deriving Repr, DecidableEq

/-- core/entities/user.py: a user row.  `balance` is the monetary balance
(a Python float in the source, modelled as an exact rational here). -/
structure User where
  id : Nat
  name : String
  telegram_id : Option String
  balance : ℚ
  password_hash : Option String
  api_key : Option String
deriving Repr, DecidableEq

/-- core/entities/model.py: a PhySO configuration (a pricing tier). -/
structure Model where
  id : Nat
  name : String
  description : Option String
  base_price : ℚ
  epoch_price : ℚ
  is_active : Bool
deriving Repr, DecidableEq

/-- core/entities/prediction.py: one costed unit of work, with the columns
of the predictions table (infra/db/initialize_db_sqlite.py).  `epochs` is a
Python int, hence `Int`.  `metadata` holds the JSON text stored in the
metadata column. -/
structure Prediction where
  id : Nat
  uuid : String
  user_id : Nat
  model_id : Nat
  input_data : String
  y_name : String
  x_names : Option (List String)
  epochs : Int
  op_names : Option (List String)
  free_consts_names : Option (List String)
  run_config : String
  stop_reward : ℚ
  parallel_mode : Bool
  best_formula : Option String
  best_r2 : Option ℚ
  pareto_count : Nat
  metadata : String
  total_cost : Option ℚ
  status : Status
  created_at : Nat
  completed_at : Option Nat
  queue_time : Option Nat
  process_time : Option Nat
deriving Repr, DecidableEq

/-- core/entities/transaction.py: one ledger entry (signed balance delta,
optionally referencing the prediction it charges for). -/
structure Transaction where
  id : Nat
  user_id : Nat
  amount : ℚ
  description : String
  prediction_id : Option Nat
  created_at : Nat
deriving Repr, DecidableEq

/-- The SQLite database state shared by the four repositories
(infra/db/sqlite_repositories.py).  The `next_…_id` counters model the
AUTOINCREMENT rowids handed out by `add` (`cursor.lastrowid`); SQLite
starts them at 1. -/
structure DB where
  users : List User
  models : List Model
  predictions : List Prediction
  transactions : List Transaction
  next_prediction_id : Nat
  next_transaction_id : Nat
deriving Repr, DecidableEq

/-- SQLiteUserRepository.get_by_api_key: `SELECT * FROM users WHERE
api_key = ?` returning the first matching row. -/
def get_by_api_key (db : DB) (key : String) : Option User :=
  db.users.find? (fun u => u.api_key == some key)

/-- SQLiteUserRepository.update_balance (sqlite_repositories.py lines
83-91): `UPDATE users SET balance = ? WHERE id = ?` — an unconditional
overwrite of the balance column, no read, no comparison. -/
def update_balance (db : DB) (user_id : Nat) (new_balance : ℚ) : DB :=
  { db with users := db.users.map (fun u =>
      if u.id = user_id then { u with balance := new_balance } else u) }

/-- SQLiteModelRepository.get_active_model: `SELECT * FROM models WHERE
is_active = 1 LIMIT 1` — the first active row. -/
def get_active_model (db : DB) : Option Model :=
  db.models.find? (fun m => m.is_active)

/-- SQLitePredictionRepository.add: INSERT assigning the AUTOINCREMENT id
(`prediction.id = cursor.lastrowid`); returns the stored entity. -/
def prediction_add (db : DB) (p : Prediction) : Prediction × DB :=
  let stored := { p with id := db.next_prediction_id }
  (stored,
   { db with
      predictions := db.predictions ++ [stored],
      next_prediction_id := db.next_prediction_id + 1 })

/-- SQLitePredictionRepository.update (sqlite_repositories.py lines
296-322): the UPDATE statement sets exactly input_data, y_name, x_names,
epochs, op_names, free_consts_names, run_config, stop_reward,
parallel_mode, best_formula, best_r2, pareto_count, metadata, total_cost,
status, completed_at, queue_time and process_time on the row WHERE id
matches; uuid, user_id, model_id and created_at are not in the column
list. -/
def prediction_update (db : DB) (p : Prediction) : DB :=
  { db with predictions := db.predictions.map (fun q =>
      if q.id = p.id then
        { q with
            input_data := p.input_data, y_name := p.y_name,
            x_names := p.x_names, epochs := p.epochs,
            op_names := p.op_names,
            free_consts_names := p.free_consts_names,
            run_config := p.run_config, stop_reward := p.stop_reward,
            parallel_mode := p.parallel_mode,
            best_formula := p.best_formula, best_r2 := p.best_r2,
            pareto_count := p.pareto_count, metadata := p.metadata,
            total_cost := p.total_cost, status := p.status,
            completed_at := p.completed_at, queue_time := p.queue_time,
            process_time := p.process_time }
      else q) }

/-- SQLiteTransactionRepository.add (sqlite_repositories.py lines
355-367): INSERT of (user_id, amount, description, prediction_id) with an
AUTOINCREMENT id. -/
def transaction_add (db : DB) (t : Transaction) : Transaction × DB :=
  let stored := { t with id := db.next_transaction_id }
  (stored,
   { db with
      transactions := db.transactions ++ [stored],
      next_transaction_id := db.next_transaction_id + 1 })

/-- SQLiteTransactionRepository.list_by_user restricted to the amounts:
the entries belonging to one account. -/
def transactions_of (db : DB) (user_id : Nat) : List Transaction :=
  db.transactions.filter (fun t => t.user_id == user_id)

/-- The ledger entries that reference a given prediction record. -/
def entries_for (db : DB) (prediction_id : Nat) : List Transaction :=
  db.transactions.filter (fun t => t.prediction_id == some prediction_id)

/-- Balance of the account with the given id, read from the users table. -/
def balance_of (db : DB) (user_id : Nat) : Option ℚ :=
  (db.users.find? (fun u => u.id == user_id)).map User.balance

/-- PhySoService.calculate_cost (infra/physo/physo_service.py lines
283-285): `base_price + (epoch_price * epochs)`. -/
def calculate_cost (base_price epoch_price : ℚ) (epochs : Int) : ℚ :=
  base_price + epoch_price * epochs

/-- main_sync.py PredictionCreateRequest: the request body of
POST /api/v1/predictions/ (the fields the billing path reads). -/
structure PredictionCreateRequest where
  user_id : Nat
  input_data : String
  y_name : String
  x_names : Option (List String)
  epochs : Int
  op_names : Option (List String)
  free_consts_names : Option (List String)
  run_config : String
  stop_reward : ℚ
  parallel_mode : Bool
deriving Repr, DecidableEq

/-- The distinct rejections raised by create_prediction_sync before a
prediction record is created (main_sync.py lines 69-92):
401 Invalid API key; 403 API key does not match user; 402 Insufficient
balance (the `balance <= 0` check at line 77); 503 No active model
available; 402 with required and available amounts (line 88). -/
inductive ApiError where
  | invalidCredential
  | accountMismatch
  | zeroBalance
  | noTierAvailable
  | insufficientBalance (required available : ℚ)
deriving Repr, DecidableEq

/-- The dictionary returned by PhySoService.train
(infra/physo/physo_service.py lines 69-89).  `train` wraps its whole body
in try/except and returns `success = False` with empty result fields on
any internal error — it never raises to its caller. -/
structure TrainResult where
  success : Bool
  message : String
  best_formula : Option String
  best_r2 : Option ℚ
  pareto_count : Nat
  metadata : String
deriving Repr, DecidableEq

/-- Behaviour of the awaited work call as seen by create_prediction_sync:
either `train` returns its result dictionary (the only behaviour
PhySoService.train exhibits), or the awaited call raises — which routes
the endpoint through its `except` handler (main_sync.py lines 162-170). -/
inductive WorkStep where
  | returns (r : TrainResult)
  | raises (msg : String)
deriving Repr, DecidableEq

/-- The request-local values create_prediction_sync holds across its
`await physo_service.train(...)` suspension point: the user row read at
line 69, the active model read at line 81, the cost computed at line 86
and the prediction record stored at line 109. -/
structure Admitted where
  api_user : User
  model : Model
  total_cost : ℚ
  pred : Prediction
deriving Repr, DecidableEq

/-- Outcome of create_prediction_sync: a pre-admission rejection (an
HTTPException from lines 70-92), a 200 response carrying the finalized
record (returned for completed AND for engine-reported-failed records,
line 157), or the 500 path of the except handler (line 170), which
persists the record as failed first. -/
inductive Outcome where
  | rejected (e : ApiError)
  | response (p : Prediction)
  | serverError (p : Prediction) (msg : String)
deriving Repr, DecidableEq

/-- The synchronous prefix of create_prediction_sync (main_sync.py lines
69-109): credential lookup, user-id cross-check, `balance <= 0` check,
active-model lookup, cost quote, full balance comparison, then admission
of the prediction record in `processing` status.  No await occurs inside
this block, so under asyncio it executes atomically with respect to other
requests.  `uuid` and `now` stand for the generated uuid4 and the wall
clock. -/
def gate_and_admission (db : DB) (x_api_key : String)
    (req : PredictionCreateRequest) (uuid : String) (now : Nat) :
    Except ApiError Admitted × DB :=
  match get_by_api_key db x_api_key with
  | none => (.error .invalidCredential, db)
  | some api_user =>
    if api_user.id ≠ req.user_id then
      (.error .accountMismatch, db)
    else if api_user.balance ≤ 0 then
      (.error .zeroBalance, db)
    else
      match get_active_model db with
      | none => (.error .noTierAvailable, db)
      | some model =>
        let total_cost :=
          calculate_cost model.base_price model.epoch_price req.epochs
        if api_user.balance < total_cost then
          (.error (.insufficientBalance total_cost api_user.balance), db)
        else
          let pred0 : Prediction :=
            { id := 0, uuid := uuid, user_id := api_user.id,
              model_id := model.id, input_data := req.input_data,
              y_name := req.y_name, x_names := req.x_names,
              epochs := req.epochs, op_names := req.op_names,
              free_consts_names := req.free_consts_names,
              run_config := req.run_config, stop_reward := req.stop_reward,
              parallel_mode := req.parallel_mode, best_formula := none,
              best_r2 := none, pareto_count := 0, metadata := "",
              total_cost := none, status := .processing,
              created_at := now, completed_at := none, queue_time := none,
              process_time := none }
          let (pred, db1) := prediction_add db pred0
          (.ok { api_user := api_user, model := model,
                 total_cost := total_cost, pred := pred }, db1)

/-- The continuation of create_prediction_sync after the awaited work call
(main_sync.py lines 127-170).  When `train` returns its dictionary (lines
131-160): the record gets the result fields, its total_cost is set to the
cost computed before admission, its status becomes completed or failed
according to `physo_result.success`, and then — on BOTH of those statuses —
the balance read before admission is decremented by the cost and a
transaction referencing the record is inserted.  When the awaited call
raises (lines 162-170): the record is marked failed with the error text,
no balance update and no transaction happen, and a 500 error is returned.
The description text is modelled without the epoch-count suffix of the
f-string at line 151. -/
def settle (db : DB) (adm : Admitted) (work : WorkStep)
    (now : Nat) (process_time_ms : Nat) : Outcome × DB :=
  match work with
  | .raises msg =>
      let predF :=
        { adm.pred with
            status := Status.failed, completed_at := some now,
            best_formula := some ("Error: " ++ msg) }
      (.serverError predF msg, prediction_update db predF)
  | .returns r =>
      let pred2 :=
        { adm.pred with
            best_formula := r.best_formula, best_r2 := r.best_r2,
            pareto_count := r.pareto_count, metadata := r.metadata,
            total_cost := some adm.total_cost,
            status := if r.success then Status.completed else Status.failed,
            process_time := some process_time_ms,
            completed_at := some now }
      let db1 := prediction_update db pred2
      let new_balance := adm.api_user.balance - adm.total_cost
      let db2 := update_balance db1 adm.api_user.id new_balance
      let t : Transaction :=
        { id := 0, user_id := adm.api_user.id, amount := -adm.total_cost,
          description := "PhySO prediction " ++ adm.pred.uuid,
          prediction_id := some adm.pred.id, created_at := now }
      let (_, db3) := transaction_add db2 t
      (.response pred2, db3)

/-- create_prediction_sync (main_sync.py lines 59-170) as a function of
the database state: the gate-and-admit prefix followed by the settlement
continuation, with the behaviour of the work call passed in as the opaque
external collaborator. -/
def create_prediction_sync (db : DB) (x_api_key : String)
    (req : PredictionCreateRequest) (work : WorkStep)
    (uuid : String) (now : Nat) (process_time_ms : Nat) : Outcome × DB :=
  match gate_and_admission db x_api_key req uuid now with
  | (.error e, db1) => (.rejected e, db1)
  | (.ok adm, db1) => settle db1 adm work now process_time_ms

/-- Modelled from the spec: no top-up endpoint exists under src/ (the only
writer of transactions in the source is the charge in
create_prediction_sync).  Spec section 6 requires "Record a top-up
(positive LedgerEntry) for an account": increase the balance by the
amount and append one ledger entry of that amount, referencing no
prediction. -/
def top_up (db : DB) (user_id : Nat) (amount : ℚ) (now : Nat) : DB :=
  match db.users.find? (fun u => u.id == user_id) with
  | none => db
  | some u =>
      let db1 := update_balance db user_id (u.balance + amount)
      (transaction_add db1
        { id := 0, user_id := user_id, amount := amount,
          description := "Balance top-up", prediction_id := none,
          created_at := now }).2

/-- A user record of the JSON store of the Telegram bot
(PhySO-Telegram-Bot/services/user_service.py): credits are Python ints. -/
structure TgUser where
  telegram_id : String
  credits : Int
  total_predictions : Int
deriving Repr, DecidableEq

/-- UserService.spend_credits (user_service.py lines 148-164): look the
user up by telegram id; return None (store unchanged) when the user is
missing or `credits < amount`; otherwise decrement credits, bump
total_predictions, and return the updated user. -/
def spend_credits (users : List TgUser) (telegram_id : String)
    (amount : Int) : Option TgUser × List TgUser :=
  match users.find? (fun u => u.telegram_id == telegram_id) with
  | none => (none, users)
  | some u =>
      if u.credits < amount then (none, users)
      else
        let u2 := { u with credits := u.credits - amount,
                           total_predictions := u.total_predictions + 1 }
        (some u2,
         users.map (fun v => if v.telegram_id == telegram_id then u2 else v))

/-- Floor of a rational as an integer (the denominator is positive, so
flooring division of the numerator by the denominator is the floor). -/
def rfloor (q : ℚ) : ℤ := q.num.fdiv (q.den : ℤ)

/-- Rounding to the nearest integer with ties to even, on exact
rationals. -/
def rne (q : ℚ) : ℤ :=
  let f : ℤ := rfloor q
  let r : ℚ := q - (f : ℚ)
  if r < 1/2 then f
  else if 1/2 < r then f + 1
  else if f % 2 = 0 then f else f + 1

/-- Integer powers of two as rationals. -/
def pow2 (e : ℤ) : ℚ :=
  match e with
  | .ofNat n => ((2 ^ n : ℕ) : ℚ)
  | .negSucc n => 1 / ((2 ^ (n + 1) : ℕ) : ℚ)

/-- Binary exponent of a positive rational: the integer e with
2 ^ e ≤ a < 2 ^ (e + 1), found by bounded doubling/halving (the fuel far
exceeds the binary64 exponent range). -/
def ilog2Aux : Nat → ℚ → ℤ → ℤ
  | 0, _, acc => acc
  | fuel + 1, a, acc =>
      if a < 1 then ilog2Aux fuel (a * 2) (acc - 1)
      else if 2 ≤ a then ilog2Aux fuel (a / 2) (acc + 1)
      else acc

/-- Binary exponent of a positive rational. -/
def ilog2 (a : ℚ) : ℤ := ilog2Aux 4200 a 0

/-- IEEE-754 binary64 rounding (round to nearest, ties to even) of an
exact rational, in the normal range: the significand is 53 bits wide.
Overflow and subnormals do not occur for the monetary values involved
here, so they are not modelled. -/
def rnd (q : ℚ) : ℚ :=
  if q = 0 then 0
  else
    let a : ℚ := if q < 0 then -q else q
    let e : ℤ := ilog2 a
    let v : ℚ := (rne (a * pow2 ((52 : ℤ) - e)) : ℚ) * pow2 (e - (52 : ℤ))
    if q < 0 then -v else v

/-- Binary64 addition: the exact sum, correctly rounded. -/
def fadd (x y : ℚ) : ℚ := rnd (x + y)

/-- Binary64 subtraction: the exact difference, correctly rounded. -/
def fsub (x y : ℚ) : ℚ := rnd (x - y)

/-- Binary64 multiplication: the exact product, correctly rounded. -/
def fmul (x y : ℚ) : ℚ := rnd (x * y)

/-- PhySoService.calculate_cost in the arithmetic of the program itself:
`base_price + (epoch_price * epochs)` on Python floats — the int is
converted to binary64, and each operation rounds. -/
def calculate_cost_float (base_price epoch_price : ℚ) (epochs : Int) : ℚ :=
  fadd base_price (fmul epoch_price (rnd epochs))

/-- gate_and_admission with the cost quote computed in binary64 arithmetic,
as the Python program does; comparisons of binary64 values coincide with
the exact comparisons of the rationals representing them. -/
def gate_and_admission_float (db : DB) (x_api_key : String)
    (req : PredictionCreateRequest) (uuid : String) (now : Nat) :
    Except ApiError Admitted × DB :=
  match get_by_api_key db x_api_key with
  | none => (.error .invalidCredential, db)
  | some api_user =>
    if api_user.id ≠ req.user_id then
      (.error .accountMismatch, db)
    else if api_user.balance ≤ 0 then
      (.error .zeroBalance, db)
    else
      match get_active_model db with
      | none => (.error .noTierAvailable, db)
      | some model =>
        let total_cost :=
          calculate_cost_float model.base_price model.epoch_price req.epochs
        if api_user.balance < total_cost then
          (.error (.insufficientBalance total_cost api_user.balance), db)
        else
          let pred0 : Prediction :=
            { id := 0, uuid := uuid, user_id := api_user.id,
              model_id := model.id, input_data := req.input_data,
              y_name := req.y_name, x_names := req.x_names,
              epochs := req.epochs, op_names := req.op_names,
              free_consts_names := req.free_consts_names,
              run_config := req.run_config, stop_reward := req.stop_reward,
              parallel_mode := req.parallel_mode, best_formula := none,
              best_r2 := none, pareto_count := 0, metadata := "",
              total_cost := none, status := .processing,
              created_at := now, completed_at := none, queue_time := none,
              process_time := none }
          let (pred, db1) := prediction_add db pred0
          (.ok { api_user := api_user, model := model,
                 total_cost := total_cost, pred := pred }, db1)

/-- settle with the balance decrement performed in binary64 arithmetic
(`new_balance = api_user.balance - total_cost` rounds); binary64 negation
of the amount is exact. -/
def settle_float (db : DB) (adm : Admitted) (work : WorkStep)
    (now : Nat) (process_time_ms : Nat) : Outcome × DB :=
  match work with
  | .raises msg =>
      let predF :=
        { adm.pred with
            status := Status.failed, completed_at := some now,
            best_formula := some ("Error: " ++ msg) }
      (.serverError predF msg, prediction_update db predF)
  | .returns r =>
      let pred2 :=
        { adm.pred with
            best_formula := r.best_formula, best_r2 := r.best_r2,
            pareto_count := r.pareto_count, metadata := r.metadata,
            total_cost := some adm.total_cost,
            status := if r.success then Status.completed else Status.failed,
            process_time := some process_time_ms,
            completed_at := some now }
      let db1 := prediction_update db pred2
      let new_balance := fsub adm.api_user.balance adm.total_cost
      let db2 := update_balance db1 adm.api_user.id new_balance
      let t : Transaction :=
        { id := 0, user_id := adm.api_user.id, amount := -adm.total_cost,
          description := "PhySO prediction " ++ adm.pred.uuid,
          prediction_id := some adm.pred.id, created_at := now }
      let (_, db3) := transaction_add db2 t
      (.response pred2, db3)

/-- create_prediction_sync with its monetary arithmetic performed in
binary64, exactly as the Python source computes it. -/
def create_prediction_sync_float (db : DB) (x_api_key : String)
    (req : PredictionCreateRequest) (work : WorkStep)
    (uuid : String) (now : Nat) (process_time_ms : Nat) : Outcome × DB :=
  match gate_and_admission_float db x_api_key req uuid now with
  | (.error e, db1) => (.rejected e, db1)
  | (.ok adm, db1) => settle_float db1 adm work now process_time_ms

/-- Sum of the ledger amounts belonging to one account. -/
def ledger_sum (db : DB) (user_id : Nat) : ℚ :=
  ((transactions_of db user_id).map Transaction.amount).sum

/-- The audit-trail invariant of the spec: each account balance equals
its initial balance plus the sum of its ledger entries.  `init` gives the
initial balance per account id. -/
abbrev accounting_ok (init : Nat → ℚ) (db : DB) : Prop :=
  ∀ u ∈ db.users, u.balance = init u.id + ledger_sum db u.id

/-- The record carried by a non-rejected outcome. -/
def outcome_record : Outcome → Option Prediction
  | .rejected _ => none
  | .response p => some p
  | .serverError p _ => some p

/-- The terminal status carried by a non-rejected outcome. -/
def outcome_status (o : Outcome) : Option Status :=
  (outcome_record o).map Prediction.status

/-- The admin user seeded by initialize_sqlite_database: balance 10.0,
api key test-api-key-123. -/
def admin_user : User :=
  { id := 1, name := "admin", telegram_id := none, balance := 10,
    password_hash := none, api_key := some "test-api-key-123" }

/-- The pricing row config0 seeded by initialize_sqlite_database: base
price 0.01, per-epoch price 0.001 (exact rationals here). -/
def config0 : Model :=
  { id := 1, name := "config0",
    description := some "Basic PhySO configuration",
    base_price := 1/100, epoch_price := 1/1000, is_active := true }

/-- The database seeded by initialize_sqlite_database
(infra/db/initialize_db_sqlite.py lines 119-140): pricing rows config0
(0.01, 0.001), config1 (0.02, 0.002), config2 (0.03, 0.003) — all three
inserted with is_active = 1 — and the admin user with balance 10.0 and
api key test-api-key-123.  Decimal literals are exact rationals here; the
binary64-faithful variant is seeded_db_float below. -/
def seeded_db : DB :=
  { users := [admin_user],
    models :=
      [config0,
       { id := 2, name := "config1",
         description := some "Extended PhySO configuration",
         base_price := 2/100, epoch_price := 2/1000, is_active := true },
       { id := 3, name := "config2",
         description := some "Advanced PhySO configuration",
         base_price := 3/100, epoch_price := 3/1000, is_active := true }],
    predictions := [], transactions := [],
    next_prediction_id := 1, next_transaction_id := 1 }

/-- The same seeded database with every REAL column holding the binary64
value Python stores for the decimal source literal. -/
def seeded_db_float : DB :=
  { users := [{ id := 1, name := "admin", telegram_id := none,
                balance := rnd 10, password_hash := none,
                api_key := some "test-api-key-123" }],
    models :=
      [{ id := 1, name := "config0",
         description := some "Basic PhySO configuration",
         base_price := rnd (1/100), epoch_price := rnd (1/1000),
         is_active := true },
       { id := 2, name := "config1",
         description := some "Extended PhySO configuration",
         base_price := rnd (2/100), epoch_price := rnd (2/1000),
         is_active := true },
       { id := 3, name := "config2",
         description := some "Advanced PhySO configuration",
         base_price := rnd (3/100), epoch_price := rnd (3/1000),
         is_active := true }],
    predictions := [], transactions := [],
    next_prediction_id := 1, next_transaction_id := 1 }

/-- A request for 50 epochs by user 1 (the endpoint defaults of
main_sync.py: y_name "y", run_config "config0", stop_reward 0.999). -/
def req50 : PredictionCreateRequest :=
  { user_id := 1, input_data := "x0,y", y_name := "y", x_names := none,
    epochs := 50, op_names := none, free_consts_names := none,
    run_config := "config0", stop_reward := 999/1000,
    parallel_mode := false }

/-- A successful train dictionary (physo_service.py lines 69-77). -/
def train_success : TrainResult :=
  { success := true, message := "ok", best_formula := some "x0",
    best_r2 := some (999/1000), pareto_count := 1, metadata := "" }

/-- The dictionary train returns when its body raises (physo_service.py
lines 79-89): success False, empty result fields — returned, not
raised. -/
def train_failure : TrainResult :=
  { success := false, message := "training error", best_formula := none,
    best_r2 := none, pareto_count := 0, metadata := "" }

/-- One full run of the endpoint on the seeded database in which the
engine reports failure. -/
def run_c1 : Outcome × DB :=
  create_prediction_sync seeded_db "test-api-key-123" req50
    (.returns train_failure) "uuid-c1" 0 0

/-- The seeded database with the admin balance set to exactly one quote
(0.06 = 3/50 for a 50-epoch config0 request). -/
def db_one_quote : DB :=
  { seeded_db with users := [{ admin_user with balance := 3/50 }] }

/-- The admin user with a zero balance. -/
def admin_zero : User := { admin_user with balance := 0 }

/-- A database in which the admin balance is 0 and no model is active. -/
def db_zero_no_tier : DB :=
  { seeded_db with
      users := [admin_zero],
      models := [{ config0 with is_active := false }] }

/-- A database with the seeded admin user but no active model. -/
def db_no_tier : DB :=
  { seeded_db with models := [{ config0 with is_active := false }] }

/-- The interleaving of two concurrent requests that asyncio permits for
create_prediction_sync: each request runs its gate-and-admit prefix
atomically, suspends at `await physo_service.train(...)`, and runs its
settlement atomically — here in the order admit-1, admit-2, settle-1,
settle-2.  Nothing in the source serializes the two requests around the
balance read and write.  Returns none if either gate rejects. -/
def overlap_schedule (db : DB) (key : String)
    (req1 req2 : PredictionCreateRequest) (w1 w2 : WorkStep) :
    Option (Outcome × Outcome × DB) :=
  match gate_and_admission db key req1 "uuid-r1" 0 with
  | (.error _, _) => none
  | (.ok adm1, db1) =>
    match gate_and_admission db1 key req2 "uuid-r2" 0 with
    | (.error _, _) => none
    | (.ok adm2, db2) =>
      let (o1, db3) := settle db2 adm1 w1 0 0
      let (o2, db4) := settle db3 adm2 w2 0 0
      some (o1, o2, db4)

/-- One full successful run of the endpoint on the seeded database in the
binary64 arithmetic of the program (the section-8 scenario of the spec: tier
config0, balance 10.0, 50 units). -/
def run_c9 : Outcome × DB :=
  create_prediction_sync_float seeded_db_float "test-api-key-123" req50
    (.returns train_success) "uuid-c9" 0 0

/-- One full successful run of the endpoint on the seeded database in
the exact-rational model. -/
def run_success : Outcome × DB :=
  create_prediction_sync seeded_db "test-api-key-123" req50
    (.returns train_success) "uuid-ok" 0 0

/-- An all-empty prediction record, used only as a getD fallback. -/
def default_prediction : Prediction :=
  { id := 0, uuid := "", user_id := 0, model_id := 0, input_data := "",
    y_name := "", x_names := none, epochs := 0, op_names := none,
    free_consts_names := none, run_config := "", stop_reward := 0,
    parallel_mode := false, best_formula := none, best_r2 := none,
    pareto_count := 0, metadata := "", total_cost := none,
    status := .pending, created_at := 0, completed_at := none,
    queue_time := none, process_time := none }

/-- The completed record produced by run_success. -/
def p_ok : Prediction := (outcome_record run_success.1).getD default_prediction

/-- Initial balances of the seeded database: the admin user starts at
10.0, everyone else at 0. -/
def init0 : Nat → ℚ := fun i => if i = 1 then 10 else 0

/-- Initial balances of db_one_quote: the admin account starts at 0.06,
everyone else at 0. -/
def init_one_quote : Nat → ℚ := fun i => if i = 1 then 3/50 else 0

/-- The admin user with balance 0.01, below the 0.06 quote of a
50-epoch config0 request. -/
def low_user : User := { admin_user with balance := 1/100 }

/-- The seeded database with the admin balance lowered to 0.01. -/
def db_low_balance : DB := { seeded_db with users := [low_user] }

/-- A request identical to req50 but claiming user id 2 — the admin
credential does not match it. -/
def req50_wrong : PredictionCreateRequest := { req50 with user_id := 2 }

/-- A bot user holding a single credit. -/
def tg_user42 : TgUser :=
  { telegram_id := "42", credits := 1, total_predictions := 0 }

/-- A bot credit store with one user holding a single credit. -/
def tg_store : List TgUser := [tg_user42]

attribute [local semireducible] Rat.mul Rat.add Rat.sub Rat.inv Rat.ofScientific

/-- Every rejecting branch of the gate returns the database unchanged. -/
theorem gate_and_admission_error_frame (db : DB) (k uuid : String)
    (req : PredictionCreateRequest) (now : Nat) (e : ApiError) (db1 : DB)
    (h : gate_and_admission db k req uuid now = (.error e, db1)) : db1 = db := by
  unfold gate_and_admission at h
  split at h
  · exact (congrArg Prod.snd h).symm
  · split at h
    · exact (congrArg Prod.snd h).symm
    · split at h
      · exact (congrArg Prod.snd h).symm
      · split at h
        · exact (congrArg Prod.snd h).symm
        · dsimp only at h
          split at h
          · exact (congrArg Prod.snd h).symm
          · simp [prediction_add] at h

/-- Inversion of a successful gate: the facts the admission carries.  The
admitted user is the result of the credential lookup, the id cross-check and
both balance checks passed, the cost is the calculate_cost quote for the
active model, the record is stored in processing status with no cost yet,
and only the predictions table grew. -/
theorem gate_and_admission_ok (db : DB) (k uuid : String)
    (req : PredictionCreateRequest) (now : Nat) (adm : Admitted) (db1 : DB)
    (h : gate_and_admission db k req uuid now = (.ok adm, db1)) :
    get_by_api_key db k = some adm.api_user
    ∧ adm.api_user.id = req.user_id
    ∧ 0 < adm.api_user.balance
    ∧ get_active_model db = some adm.model
    ∧ adm.total_cost
        = calculate_cost adm.model.base_price adm.model.epoch_price req.epochs
    ∧ adm.total_cost ≤ adm.api_user.balance
    ∧ adm.pred.id = db.next_prediction_id
    ∧ adm.pred.user_id = adm.api_user.id
    ∧ adm.pred.total_cost = none
    ∧ adm.pred.status = .processing
    ∧ db1.users = db.users
    ∧ db1.models = db.models
    ∧ db1.transactions = db.transactions
    ∧ db1.next_prediction_id = db.next_prediction_id + 1
    ∧ db1.next_transaction_id = db.next_transaction_id := by
  unfold gate_and_admission at h
  split at h
  · simp at h
  · rename_i u hf
    split at h
    · simp at h
    · rename_i h1
      split at h
      · simp at h
      · rename_i h2
        split at h
        · simp at h
        · rename_i m hm
          dsimp only at h
          split at h
          · simp at h
          · rename_i h3
            simp only [prediction_add, Prod.mk.injEq, Except.ok.injEq] at h
            obtain ⟨hadm, hdb⟩ := h
            subst hadm
            subst hdb
            refine ⟨hf, not_ne_iff.mp h1, not_le.mp h2, hm, rfl,
              not_lt.mp h3, rfl, rfl, rfl, rfl, rfl, rfl, rfl, rfl, rfl⟩

/-- The settlement step never yields a pre-admission rejection. -/
theorem settle_never_rejected (db : DB) (adm : Admitted) (w : WorkStep)
    (now pt : Nat) (e : ApiError) :
    (settle db adm w now pt).1 ≠ .rejected e := by
  cases w <;> simp [settle]

/-- Appending one transaction adds its amount to the ledger sum of its owner
and leaves the ledger sum of every other account unchanged. -/
theorem ledger_sum_transaction_add (db : DB) (t : Transaction) (uid : Nat) :
    ledger_sum (transaction_add db t).2 uid
      = ledger_sum db uid + (if t.user_id = uid then t.amount else 0) := by
  unfold ledger_sum transactions_of transaction_add
  simp only [List.filter_append, List.map_append, List.sum_append]
  by_cases h : t.user_id = uid <;> simp [h]

/-- The audit invariant depends only on the users and transactions
tables. -/
theorem accounting_ok_congr (init : Nat → ℚ) (db1 db2 : DB)
    (hu : db1.users = db2.users) (ht : db1.transactions = db2.transactions)
    (h : accounting_ok init db1) : accounting_ok init db2 := by
  intro v hv
  rw [← hu] at hv
  have hb := h v hv
  unfold ledger_sum transactions_of at hb ⊢
  rw [← ht]
  exact hb

/-- The core charge block of the settlement (main_sync.py lines 142-154):
overwrite the balance with the pre-read balance minus the cost, then
append one ledger entry of amount minus the cost.  Performed together,
the two preserve the audit invariant. -/
theorem charge_block_preserves (init : Nat → ℚ) (db : DB) (au : User)
    (c : ℚ) (t : Transaction) (hau : au ∈ db.users)
    (huid : t.user_id = au.id) (hamt : t.amount = -c)
    (hok : accounting_ok init db) :
    accounting_ok init
      (transaction_add (update_balance db au.id (au.balance - c)) t).2 := by
  intro v hv
  have hv2 : v ∈ (update_balance db au.id (au.balance - c)).users := hv
  unfold update_balance at hv2
  simp only [List.mem_map] at hv2
  obtain ⟨w, hw, rfl⟩ := hv2
  rw [show
      ledger_sum (transaction_add (update_balance db au.id (au.balance - c)) t).2
        = fun uid => ledger_sum (update_balance db au.id (au.balance - c)) uid
            + (if t.user_id = uid then t.amount else 0)
      from funext (ledger_sum_transaction_add _ t)]
  by_cases h : w.id = au.id
  · have h1 := hok au hau
    simp only [if_pos h]
    have hcond : t.user_id = w.id := by rw [huid, h]
    show au.balance - c
        = init w.id + (ledger_sum (update_balance db au.id (au.balance - c)) w.id
            + (if t.user_id = w.id then t.amount else 0))
    have hls : ledger_sum (update_balance db au.id (au.balance - c)) w.id
        = ledger_sum db w.id := rfl
    rw [hls, if_pos hcond, hamt, h, h1]
    ring
  · simp only [if_neg h]
    have hcond : ¬ t.user_id = w.id := by
      rw [huid]
      exact fun hh => h hh.symm
    show w.balance
        = init w.id + (ledger_sum (update_balance db au.id (au.balance - c)) w.id
            + (if t.user_id = w.id then t.amount else 0))
    have hls : ledger_sum (update_balance db au.id (au.balance - c)) w.id
        = ledger_sum db w.id := rfl
    rw [hls, if_neg hcond, add_zero]
    exact hok w hw

/-- Settlement preserves the audit invariant: on the engine-returns path
it runs the charge block for the pre-read user, on the raises path it
only updates the prediction record. -/
theorem settle_preserves_accounting (init : Nat → ℚ) (db : DB)
    (adm : Admitted) (w : WorkStep) (now pt : Nat)
    (hau : adm.api_user ∈ db.users) (hok : accounting_ok init db) :
    accounting_ok init (settle db adm w now pt).2 := by
  cases w with
  | raises msg =>
      exact fun v hv => hok v hv
  | returns r =>
      exact charge_block_preserves init _ adm.api_user adm.total_cost _
        hau rfl rfl (fun v hv => hok v hv)

/-- Each ATOMIC operation on balances — a whole run of
create_prediction_sync (any of its paths) or a top-up — preserves the
audit equality.  This is the sequential half of the C2 analysis: the
equality survives every uninterleaved run, and the C2 theorem below
shows the interleavings the source permits break it. -/
theorem sequential_run_preserves_accounting
    (init : Nat → ℚ) (db : DB) (x_api_key uuid : String)
    (req : PredictionCreateRequest) (work : WorkStep) (now pt : Nat)
    (uid : Nat) (amount : ℚ) (tnow : Nat)
    (hok : accounting_ok init db) :
    accounting_ok init
        (create_prediction_sync db x_api_key req work uuid now pt).2
    ∧ accounting_ok init (top_up db uid amount tnow) := by
  constructor
  · unfold create_prediction_sync
    rcases hga : gate_and_admission db x_api_key req uuid now with ⟨exc, db1⟩
    cases exc with
    | error e =>
        have hdb : db1 = db :=
          gate_and_admission_error_frame db x_api_key uuid req now e db1 hga
        subst hdb
        exact fun v hv => hok v hv
    | ok adm =>
        obtain ⟨hf, -, -, -, -, -, -, -, -, -, hu, -, ht, -, -⟩ :=
          gate_and_admission_ok db x_api_key uuid req now adm db1 hga
        have hmem : adm.api_user ∈ db.users := List.mem_of_find?_eq_some hf
        have hok1 : accounting_ok init db1 :=
          accounting_ok_congr init db db1 hu.symm ht.symm hok
        have hmem1 : adm.api_user ∈ db1.users := by
          rw [hu]
          exact hmem
        exact settle_preserves_accounting init db1 adm work now pt hmem1 hok1
  · unfold top_up
    cases hfind : db.users.find? (fun u => u.id == uid) with
    | none => exact fun v hv => hok v hv
    | some u =>
        have hmem : u ∈ db.users := List.mem_of_find?_eq_some hfind
        have hid : u.id = uid := by
          have := List.find?_some hfind
          simpa using this
        have hch := charge_block_preserves init db u (-amount)
          { id := 0, user_id := uid, amount := amount,
            description := "Balance top-up", prediction_id := none,
            created_at := tnow }
          hmem (by simpa using hid.symm) (by simp) hok
        rw [hid, sub_neg_eq_add] at hch
        exact hch

/-- Concrete check of the sequential preservation at the seeded
database: the invariant holds initially and is preserved by a full
successful charge run and by a top-up of 5. -/
theorem sequential_run_preserves_accounting_check :
    accounting_ok init0 seeded_db
    ∧ (accounting_ok init0
          (create_prediction_sync seeded_db "test-api-key-123" req50
            (.returns train_success) "uuid-ok" 0 0).2
       ∧ accounting_ok init0 (top_up seeded_db 1 5 0)) :=
  ⟨by decide,
   sequential_run_preserves_accounting init0 seeded_db "test-api-key-123"
     "uuid-ok" req50 (.returns train_success) 0 0 1 5 0 (by decide)⟩

/-- C2, evaluated at a failing execution: the audit equality
balance = initial + sum of the ledger entries of the account does NOT
hold in every reachable state.  Starting from db_one_quote — where the
equality holds — the interleaving of two concurrent charges that the
source permits settles into a state whose admin balance is 0.00 while
the initial 0.06 plus the ledger sum -0.12 gives -0.06: the state the
code reaches violates the claimed invariant. -/
theorem C2_interleaving_reaches_state_violating_accounting :
    accounting_ok init_one_quote db_one_quote
    ∧ (overlap_schedule db_one_quote "test-api-key-123" req50 req50
        (.returns train_success) (.returns train_success)).map
        (fun o => (balance_of o.2.2 1, ledger_sum o.2.2 1,
                   decide (accounting_ok init_one_quote o.2.2)))
      = some (some 0, -(3/25), false) := by
  decide

/-- C3: whenever a run of the endpoint returns a record in terminal
status completed — provided no pre-existing ledger entry references the
record id being handed out — the total_cost of the record is exactly the
calculate_cost quote of the admission-time active model, and exactly one
ledger entry references the record, with amount minus that quote. -/
theorem C3_completed_record_charged_once
    (db : DB) (x_api_key uuid : String) (req : PredictionCreateRequest)
    (r : TrainResult) (now pt : Nat) (p : Prediction) (db2 : DB) (m : Model)
    (hfresh : ∀ t ∈ db.transactions,
      t.prediction_id ≠ some db.next_prediction_id)
    (hm : get_active_model db = some m)
    (hrun : create_prediction_sync db x_api_key req (.returns r) uuid now pt
      = (.response p, db2))
    (hstatus : p.status = .completed) :
    p.total_cost
        = some (calculate_cost m.base_price m.epoch_price req.epochs)
    ∧ (entries_for db2 p.id).map Transaction.amount
        = [-(calculate_cost m.base_price m.epoch_price req.epochs)] := by
  unfold create_prediction_sync at hrun
  rcases hga : gate_and_admission db x_api_key req uuid now with ⟨exc, db1⟩
  rw [hga] at hrun
  cases exc with
  | error e => simp at hrun
  | ok adm =>
    obtain ⟨-, -, -, hm2, hcost, -, hpid, -, -, -, -, -, ht, -, -⟩ :=
      gate_and_admission_ok db x_api_key uuid req now adm db1 hga
    rw [hm] at hm2
    obtain rfl : m = adm.model := by
      injection hm2
    unfold settle at hrun
    simp only [Prod.mk.injEq, Outcome.response.injEq] at hrun
    obtain ⟨hp, hdb2⟩ := hrun
    subst hp
    subst hdb2
    refine ⟨by rw [← hcost], ?_⟩
    show ((transaction_add _ _).2.transactions.filter _).map _ = _
    rw [show (transaction_add
        (update_balance (prediction_update db1 _) adm.api_user.id
          (adm.api_user.balance - adm.total_cost))
        { id := 0, user_id := adm.api_user.id, amount := -adm.total_cost,
          description := "PhySO prediction " ++ adm.pred.uuid,
          prediction_id := some adm.pred.id,
          created_at := now }).2.transactions
      = db1.transactions ++
        [{ id := db1.next_transaction_id, user_id := adm.api_user.id,
           amount := -adm.total_cost,
           description := "PhySO prediction " ++ adm.pred.uuid,
           prediction_id := some adm.pred.id,
           created_at := now }] from rfl]
    rw [List.filter_append]
    have hold : db1.transactions.filter
        (fun t => t.prediction_id == some adm.pred.id) = [] := by
      rw [List.filter_eq_nil_iff]
      intro t htmem
      have := hfresh t (ht ▸ htmem)
      simp only [beq_iff_eq]
      rw [hpid]
      exact this
    rw [hold]
    simp [hcost]

/-- Witness for C3 at the seeded database: the successful run produces a
completed record costing exactly the config0 quote for 50 epochs, with
exactly one ledger entry of the opposite amount. -/
theorem C3_completed_record_charged_once_witness :
    (∀ t ∈ seeded_db.transactions,
        t.prediction_id ≠ some seeded_db.next_prediction_id)
    ∧ get_active_model seeded_db = some config0
    ∧ p_ok.status = .completed
    ∧ (p_ok.total_cost
          = some (calculate_cost config0.base_price config0.epoch_price
              req50.epochs)
       ∧ (entries_for run_success.2 p_ok.id).map Transaction.amount
          = [-(calculate_cost config0.base_price config0.epoch_price
              req50.epochs)]) :=
  ⟨by decide, by decide, by decide,
   C3_completed_record_charged_once seeded_db "test-api-key-123" "uuid-ok"
     req50 train_success 0 0 p_ok run_success.2 config0
     (by decide) (by decide) (by decide) (by decide)⟩

/-- C1, evaluated at a failing input: when the engine reports failure
(train returns success = False, which is how every engine error
surfaces), the endpoint still decrements the balance from 10 to 9.94 and
still inserts a ledger entry referencing the failed record — the code
charges for failed work. -/
theorem C1_failed_run_is_still_charged :
    outcome_status run_c1.1 = some .failed
    ∧ balance_of seeded_db 1 = some 10
    ∧ balance_of run_c1.2 1 = some (497/50)
    ∧ run_c1.2.transactions.map
        (fun t => (t.user_id, t.prediction_id, t.amount))
        = [(1, some 1, -(3/50))]
    ∧ (outcome_record run_c1.1).map Prediction.total_cost
        = some (some (3/50)) := by
  decide

/-- C5, evaluated at the failing interleaving: with the balance equal to
a single 0.06 quote, two requests that both pass the gate before either
settles BOTH complete and are BOTH charged; the final balance equals one
debit while two ledger entries of -0.06 exist, and neither request
received InsufficientBalance. -/
theorem C5_overlapping_charges_both_succeed :
    calculate_cost config0.base_price config0.epoch_price req50.epochs
      = 3/50
    ∧ balance_of db_one_quote 1 = some (3/50)
    ∧ (overlap_schedule db_one_quote "test-api-key-123" req50 req50
        (.returns train_success) (.returns train_success)).map
        (fun o => (outcome_status o.1, outcome_status o.2.1,
                   balance_of o.2.2 1,
                   o.2.2.transactions.map Transaction.amount))
      = some (some .completed, some .completed, some 0,
              [-(3/50), -(3/50)]) := by
  decide

/-- Counterexample to C6: for an account with balance 0 and no active
tier, create_prediction_sync rejects with ZeroBalance, not
NoTierAvailable — the zero-balance check (main_sync.py line 77) runs
before the active-model lookup (line 81), the reverse of the claimed
order. -/
theorem C6_counterexample_zero_balance_before_tier :
    create_prediction_sync db_zero_no_tier "test-api-key-123" req50
        (.returns train_success) "uuid-z" 0 0
      = (.rejected .zeroBalance, db_zero_no_tier)
    ∧ get_active_model db_zero_no_tier = none
    ∧ ApiError.zeroBalance ≠ ApiError.noTierAvailable := by
  decide

/-- Counterexample to C9: in the binary64 arithmetic of the program the
quoted cost of the seeded scenario is not 0.06 — neither the rational
6/100 nor the binary64 value nearest 0.06 — and the recorded
total_cost is that off-by-one-ulp quote. -/
theorem C9_counterexample_quote_not_six_cents :
    calculate_cost_float (rnd (1/100)) (rnd (1/1000)) 50 ≠ 6/100
    ∧ calculate_cost_float (rnd (1/100)) (rnd (1/1000)) 50 ≠ rnd (6/100)
    ∧ (outcome_record run_c9.1).map Prediction.total_cost
        = some (some (calculate_cost_float (rnd (1/100)) (rnd (1/1000)) 50)) := by
  decide

/-- C9 amended: in binary64 the quote is 8646911284551353·2^-57 (printed
0.060000000000000005), one ulp above the binary64 value nearest 0.06;
after the successful settlement the stored balance is exactly the
binary64 value of 9.94, and exactly one ledger entry exists, of amount
minus the quote. -/
theorem C9_seeded_scenario_binary64 :
    outcome_status run_c9.1 = some .completed
    ∧ (outcome_record run_c9.1).map Prediction.total_cost
        = some (some (8646911284551353/144115188075855872))
    ∧ rnd (6/100) = 1080863910568919/18014398509481984
    ∧ balance_of run_c9.2 1 = some (rnd (994/100))
    ∧ rnd (994/100) = 5595722537007841/562949953421312
    ∧ (entries_for run_c9.2 1).map Transaction.amount
        = [-(8646911284551353/144115188075855872)] := by
  decide

/-- C10: the update of the prediction repository leaves uuid, user_id,
model_id and created_at of every stored record unchanged — those columns
are absent from its UPDATE statement. -/
theorem C10_update_preserves_identity_fields (db : DB) (p : Prediction) :
    (prediction_update db p).predictions.map
        (fun q => (q.uuid, q.user_id, q.model_id, q.created_at))
      = db.predictions.map
        (fun q => (q.uuid, q.user_id, q.model_id, q.created_at)) := by
  show (db.predictions.map _).map _ = _
  rw [List.map_map]
  apply List.map_congr_left
  intro q hq
  by_cases h : q.id = p.id <;> simp [h]

/-- C4: charge operations keep balances non-negative and are rejected
without mutation when the cost exceeds the available balance — on the
HTTP-service side (create_prediction_sync) and on the bot side
(spend_credits). -/
theorem C4_charges_cannot_drive_balance_negative
    (db : DB) (x_api_key uuid : String) (req : PredictionCreateRequest)
    (work : WorkStep) (now pt : Nat) (u : User) (m : Model)
    (users : List TgUser) (tid : String) (amount : Int) (tu : TgUser) :
    ((∀ v ∈ db.users, 0 ≤ v.balance) →
      ∀ v ∈ (create_prediction_sync db x_api_key req work uuid now pt).2.users,
        0 ≤ v.balance)
    ∧ (get_by_api_key db x_api_key = some u → u.id = req.user_id →
        0 < u.balance → get_active_model db = some m →
        u.balance < calculate_cost m.base_price m.epoch_price req.epochs →
        create_prediction_sync db x_api_key req work uuid now pt
          = (.rejected (.insufficientBalance
              (calculate_cost m.base_price m.epoch_price req.epochs)
              u.balance), db))
    ∧ ((∀ v ∈ users, 0 ≤ v.credits) →
        ∀ v ∈ (spend_credits users tid amount).2, 0 ≤ v.credits)
    ∧ (users.find? (fun v => v.telegram_id == tid) = some tu →
        tu.credits < amount →
        spend_credits users tid amount = (none, users)) := by
  refine ⟨?_, ?_, ?_, ?_⟩
  · intro h v hv
    unfold create_prediction_sync at hv
    rcases hga : gate_and_admission db x_api_key req uuid now with ⟨exc, db1⟩
    rw [hga] at hv
    cases exc with
    | error e =>
        have hdb : db1 = db :=
          gate_and_admission_error_frame db x_api_key uuid req now e db1 hga
        subst hdb
        exact h v hv
    | ok adm =>
        obtain ⟨-, -, -, -, -, hcb, -, -, -, -, hu, -, -, -, -⟩ :=
          gate_and_admission_ok db x_api_key uuid req now adm db1 hga
        cases work with
        | raises msg =>
            have hv2 : v ∈ db1.users := hv
            rw [hu] at hv2
            exact h v hv2
        | returns r =>
            have hv2 : v ∈ (update_balance (prediction_update db1 _)
                adm.api_user.id
                (adm.api_user.balance - adm.total_cost)).users := hv
            unfold update_balance at hv2
            simp only [List.mem_map] at hv2
            obtain ⟨w, hw, rfl⟩ := hv2
            have hw2 : w ∈ db.users := by
              rw [← hu]
              exact hw
            by_cases hwid : w.id = adm.api_user.id
            · simp only [if_pos hwid]
              exact sub_nonneg.mpr hcb
            · simp only [if_neg hwid]
              exact h w hw2
  · intro hfind hid hpos hm hlt
    have h1 : ¬ u.id ≠ req.user_id := not_ne_iff.mpr hid
    have h2 : ¬ u.balance ≤ 0 := not_le.mpr hpos
    simp [create_prediction_sync, gate_and_admission, hfind, hm, h1, h2, hlt]
  · intro h v hv
    unfold spend_credits at hv
    cases hfind : users.find? (fun w => w.telegram_id == tid) with
    | none =>
        rw [hfind] at hv
        exact h v hv
    | some w =>
        simp only [hfind] at hv
        by_cases hlt : w.credits < amount
        · rw [if_pos hlt] at hv
          exact h v hv
        · rw [if_neg hlt] at hv
          simp only [List.mem_map] at hv
          obtain ⟨x, hx, rfl⟩ := hv
          by_cases heq : x.telegram_id == tid
          · simp only [if_pos heq]
            have hle := not_lt.mp hlt
            show 0 ≤ w.credits - amount
            omega
          · simp only [if_neg heq]
            exact h x hx
  · intro hfind hlt
    simp [spend_credits, hfind, hlt]

/-- Witness for C4: on the seeded database a successful charge keeps all
balances non-negative; on db_low_balance (balance 0.01 against a 0.06
quote) the request is rejected with both amounts and the state is
unchanged; the bot store keeps credits non-negative after a spend of 1,
and a spend of 5 against 1 credit is refused without mutation. -/
theorem C4_charges_cannot_drive_balance_negative_witness :
    ((∀ v ∈ seeded_db.users, 0 ≤ v.balance)
      ∧ ∀ v ∈ (create_prediction_sync seeded_db "test-api-key-123" req50
          (.returns train_success) "uuid-ok" 0 0).2.users, 0 ≤ v.balance)
    ∧ (low_user.balance
          < calculate_cost config0.base_price config0.epoch_price req50.epochs
       ∧ create_prediction_sync db_low_balance "test-api-key-123" req50
          (.returns train_success) "uuid-low" 0 0
          = (.rejected (.insufficientBalance
              (calculate_cost config0.base_price config0.epoch_price
                req50.epochs)
              low_user.balance), db_low_balance))
    ∧ ((∀ v ∈ tg_store, 0 ≤ v.credits)
      ∧ ∀ v ∈ (spend_credits tg_store "42" 1).2, 0 ≤ v.credits)
    ∧ (tg_user42.credits < 5
       ∧ spend_credits tg_store "42" 5 = (none, tg_store)) := by
  refine ⟨⟨by decide, ?_⟩, ⟨by decide, ?_⟩, ⟨by decide, ?_⟩,
    ⟨by decide, ?_⟩⟩
  · exact (C4_charges_cannot_drive_balance_negative seeded_db
      "test-api-key-123" "uuid-ok" req50 (.returns train_success) 0 0
      admin_user config0 tg_store "42" 1 tg_user42).1 (by decide)
  · exact (C4_charges_cannot_drive_balance_negative db_low_balance
      "test-api-key-123" "uuid-low" req50 (.returns train_success) 0 0
      low_user config0 tg_store "42" 1 tg_user42).2.1
      (by decide) (by decide) (by decide) (by decide) (by decide)
  · exact (C4_charges_cannot_drive_balance_negative seeded_db
      "test-api-key-123" "uuid-ok" req50 (.returns train_success) 0 0
      admin_user config0 tg_store "42" 1 tg_user42).2.2.1 (by decide)
  · exact (C4_charges_cannot_drive_balance_negative seeded_db
      "test-api-key-123" "uuid-ok" req50 (.returns train_success) 0 0
      admin_user config0 tg_store "42" 5 tg_user42).2.2.2
      (by decide) (by decide)

/-- C6 amended: the gate checks run in the order credential resolution,
account-id match, zero-balance check, tier resolution, quote and full
comparison — the zero-balance check PRECEDES tier resolution, so an
account with balance at most 0 is answered ZeroBalance even when no tier
is active. -/
theorem C6_gate_checks_in_code_order
    (db : DB) (k uuid : String) (req : PredictionCreateRequest)
    (now : Nat) (u : User) (m : Model) :
    (get_by_api_key db k = none →
      gate_and_admission db k req uuid now = (.error .invalidCredential, db))
    ∧ (get_by_api_key db k = some u → u.id ≠ req.user_id →
        gate_and_admission db k req uuid now = (.error .accountMismatch, db))
    ∧ (get_by_api_key db k = some u → u.id = req.user_id →
        u.balance ≤ 0 →
        gate_and_admission db k req uuid now = (.error .zeroBalance, db))
    ∧ (get_by_api_key db k = some u → u.id = req.user_id →
        0 < u.balance → get_active_model db = none →
        gate_and_admission db k req uuid now = (.error .noTierAvailable, db))
    ∧ (get_by_api_key db k = some u → u.id = req.user_id →
        0 < u.balance → get_active_model db = some m →
        u.balance < calculate_cost m.base_price m.epoch_price req.epochs →
        gate_and_admission db k req uuid now
          = (.error (.insufficientBalance
              (calculate_cost m.base_price m.epoch_price req.epochs)
              u.balance), db)) := by
  refine ⟨?_, ?_, ?_, ?_, ?_⟩
  · intro hf
    simp [gate_and_admission, hf]
  · intro hf hne
    simp [gate_and_admission, hf, hne]
  · intro hf hid hz
    have h1 : ¬ u.id ≠ req.user_id := not_ne_iff.mpr hid
    simp [gate_and_admission, hf, h1, hz]
  · intro hf hid hpos hm
    have h1 : ¬ u.id ≠ req.user_id := not_ne_iff.mpr hid
    have h2 : ¬ u.balance ≤ 0 := not_le.mpr hpos
    simp [gate_and_admission, hf, h1, h2, hm]
  · intro hf hid hpos hm hlt
    have h1 : ¬ u.id ≠ req.user_id := not_ne_iff.mpr hid
    have h2 : ¬ u.balance ≤ 0 := not_le.mpr hpos
    simp [gate_and_admission, hf, h1, h2, hm, hlt]

/-- Witness for the amended C6, exercising all five rejections: an
unknown key; the admin key against a request claiming user 2; the
zero-balance account with no active tier (answered ZeroBalance); a
positive balance with no active tier (answered NoTierAvailable); and a
0.01 balance against a 0.06 quote. -/
theorem C6_gate_checks_in_code_order_witness :
    (get_by_api_key seeded_db "wrong-key" = none
      ∧ gate_and_admission seeded_db "wrong-key" req50 "u" 0
          = (.error .invalidCredential, seeded_db))
    ∧ (admin_user.id ≠ req50_wrong.user_id
      ∧ gate_and_admission seeded_db "test-api-key-123" req50_wrong "u" 0
          = (.error .accountMismatch, seeded_db))
    ∧ (admin_zero.balance ≤ 0
      ∧ gate_and_admission db_zero_no_tier "test-api-key-123" req50 "u" 0
          = (.error .zeroBalance, db_zero_no_tier))
    ∧ (get_active_model db_no_tier = none
      ∧ gate_and_admission db_no_tier "test-api-key-123" req50 "u" 0
          = (.error .noTierAvailable, db_no_tier))
    ∧ (low_user.balance
          < calculate_cost config0.base_price config0.epoch_price req50.epochs
      ∧ gate_and_admission db_low_balance "test-api-key-123" req50 "u" 0
          = (.error (.insufficientBalance
              (calculate_cost config0.base_price config0.epoch_price
                req50.epochs)
              low_user.balance), db_low_balance)) := by
  refine ⟨⟨by decide, ?_⟩, ⟨by decide, ?_⟩, ⟨by decide, ?_⟩,
    ⟨by decide, ?_⟩, ⟨by decide, ?_⟩⟩
  · exact (C6_gate_checks_in_code_order seeded_db "wrong-key" "u" req50 0
      admin_user config0).1 (by decide)
  · exact (C6_gate_checks_in_code_order seeded_db "test-api-key-123" "u"
      req50_wrong 0 admin_user config0).2.1 (by decide) (by decide)
  · exact (C6_gate_checks_in_code_order db_zero_no_tier "test-api-key-123"
      "u" req50 0 admin_zero config0).2.2.1
      (by decide) (by decide) (by decide)
  · exact (C6_gate_checks_in_code_order db_no_tier "test-api-key-123" "u"
      req50 0 admin_user config0).2.2.2.1
      (by decide) (by decide) (by decide) (by decide)
  · exact (C6_gate_checks_in_code_order db_low_balance "test-api-key-123"
      "u" req50 0 low_user config0).2.2.2.2
      (by decide) (by decide) (by decide) (by decide) (by decide)

/-- C7: a rejected request leaves the database exactly as it was — no
prediction record, no balance change, no ledger entry. -/
theorem C7_rejection_leaves_state_unchanged
    (db : DB) (k uuid : String) (req : PredictionCreateRequest)
    (work : WorkStep) (now pt : Nat) (e : ApiError) (db2 : DB)
    (hrun : create_prediction_sync db k req work uuid now pt
      = (.rejected e, db2)) :
    db2 = db := by
  unfold create_prediction_sync at hrun
  rcases hga : gate_and_admission db k req uuid now with ⟨exc, db1⟩
  rw [hga] at hrun
  cases exc with
  | error e2 =>
      have h2 : db1 = db2 := congrArg Prod.snd hrun
      rw [← h2]
      exact gate_and_admission_error_frame db k uuid req now e2 db1 hga
  | ok adm =>
      exact absurd (congrArg Prod.fst hrun)
        (settle_never_rejected db1 adm work now pt e)

/-- Witness for C7: the ZeroBalance rejection at the zero-balance
database returns that database unchanged. -/
theorem C7_rejection_leaves_state_unchanged_witness :
    (create_prediction_sync db_zero_no_tier "test-api-key-123" req50
        (.returns train_success) "uuid-z" 0 0
      = (.rejected .zeroBalance, db_zero_no_tier))
    ∧ db_zero_no_tier = db_zero_no_tier :=
  ⟨by decide,
   C7_rejection_leaves_state_unchanged db_zero_no_tier "test-api-key-123"
     "uuid-z" req50 (.returns train_success) 0 0 .zeroBalance
     db_zero_no_tier (by decide)⟩

/-- C8: the quote is the linear formula base + per-epoch * units, it is
a pure function (two applications to equal arguments are equal), and a
run that returns a record stores as its total_cost exactly the same
calculate_cost quote that the gate compared the balance against. -/
theorem C8_quote_formula_pure_and_reused
    (base epoch : ℚ) (n : Int) (db : DB) (k uuid : String)
    (req : PredictionCreateRequest) (r : TrainResult) (now pt : Nat)
    (p : Prediction) (db2 : DB) (m : Model) :
    (0 ≤ n → calculate_cost base epoch n = base + epoch * n)
    ∧ calculate_cost base epoch n = calculate_cost base epoch n
    ∧ (get_active_model db = some m →
        create_prediction_sync db k req (.returns r) uuid now pt
          = (.response p, db2) →
        p.total_cost
          = some (calculate_cost m.base_price m.epoch_price req.epochs)) := by
  refine ⟨fun _ => rfl, rfl, ?_⟩
  intro hm hrun
  unfold create_prediction_sync at hrun
  rcases hga : gate_and_admission db k req uuid now with ⟨exc, db1⟩
  rw [hga] at hrun
  cases exc with
  | error e => simp at hrun
  | ok adm =>
      obtain ⟨-, -, -, hm2, hcost, -, -, -, -, -, -, -, -, -, -⟩ :=
        gate_and_admission_ok db k uuid req now adm db1 hga
      rw [hm] at hm2
      obtain rfl : m = adm.model := by injection hm2
      unfold settle at hrun
      simp only [Prod.mk.injEq, Outcome.response.injEq] at hrun
      obtain ⟨hp, -⟩ := hrun
      subst hp
      rw [← hcost]

/-- Witness for C8 at the seeded scenario: the config0 quote for 50
epochs is linear, and the completed record of the successful run stores
exactly that quote. -/
theorem C8_quote_formula_pure_and_reused_witness :
    ((0 : Int) ≤ 50
      ∧ calculate_cost (1/100) (1/1000) 50 = 1/100 + (1/1000) * 50)
    ∧ (get_active_model seeded_db = some config0
      ∧ p_ok.total_cost
          = some (calculate_cost config0.base_price config0.epoch_price
              req50.epochs)) := by
  refine ⟨⟨by decide, ?_⟩, ⟨by decide, ?_⟩⟩
  · exact (C8_quote_formula_pure_and_reused (1/100) (1/1000) 50 seeded_db
      "test-api-key-123" "uuid-ok" req50 train_success 0 0 p_ok
      run_success.2 config0).1 (by decide)
  · exact (C8_quote_formula_pure_and_reused (1/100) (1/1000) 50 seeded_db
      "test-api-key-123" "uuid-ok" req50 train_success 0 0 p_ok
      run_success.2 config0).2.2 (by decide) (by decide)

end PhySOBilling

